import Mathlib

/-
Verification of the ILI9806E MIPI-DSI panel driver
(drivers/gpu/drm/panel/panel-ilitek-ili9806e.c).

Shallow embedding: the driver's functions are translated into pure Lean
functions over an explicit `World` state that records the DSI mode flags,
the backlight bookkeeping, the panel's brightness register, whether the
auxiliary DSI_EN GPIO is currently requested, the number of transport
calls issued so far, and a trace of externally observable events.

The transport (mipi_dsi_dcs_write_buffer and friends) is an external
collaborator; it is modelled by an oracle `Transport : Nat → Int` giving
the result of the n-th transport call (negative = link error, as in the
kernel), while the panel side latches a successfully written brightness
value into `panelReg` (the spec's "transport that echoes writes").
-/

namespace Ili9806e

/-- Externally observable events emitted by the driver. Each transport
write records the buffer it sends and whether the low-power-mode bit of
the DSI mode flags was set at the time of the write. -/
inductive Event where
  | write (bytes : List Nat) (lpm : Bool)
  | writeBrightness (v : Nat) (lpm : Bool)
  | readBrightness (lpm : Bool)
  | sleep (ms : Nat)
  | railEnable
  | railDisable
  | resetSet (v : Nat)
  | gpioRequest (pin : Nat)
  | gpioDirOut (pin : Nat) (v : Nat)
  | gpioFree (pin : Nat)
  | backlightOn
  | backlightOff
  | logIndex (i : Nat) (ret : Int)
  | logGpioReqFail (ret : Int)
  deriving Repr, DecidableEq

/-- The mutable state visible to the driver: `modeFlags` is
dsi->mode_flags, `blBrightness` is bl->props.brightness, `panelReg` is
the panel-side brightness register (latched by successful writes),
`gpioHeld` tracks whether GPIO DSI_EN is currently requested, `nWrites`
counts transport calls (indexing the oracle), `trace` the event log. -/
structure World where
  modeFlags : Nat
  blBrightness : Nat
  panelReg : Nat
  gpioHeld : Bool
  nWrites : Nat
  trace : List Event
  deriving Repr, DecidableEq

/-- Transport oracle: result of the n-th transport call. -/
abbrev Transport := Nat → Int

/-- MIPI_DSI_MODE_LPM. Modelled from the spec: the kernel header
drm_mipi_dsi.h (not under src/) defines this as a fixed single-bit mask
of dsi->mode_flags; the spec calls it the LinkModeFlag, "a single bit
(low-power-mode vs high-speed)". The bit position (11) is immaterial to
every claim. -/
def MIPI_DSI_MODE_LPM : Nat := 2 ^ 11

/-- The low-power-mode bit currently in effect. -/
def World.lpm (w : World) : Bool := Nat.testBit w.modeFlags 11

/-- mipi_dsi_dcs_write_buffer: one transport call; the oracle gives the
result (negative = error, non-negative = bytes written). -/
def mipi_dsi_dcs_write_buffer (tr : Transport) (w : World) (bytes : List Nat) :
    Int × World :=
  (tr w.nWrites,
   { w with nWrites := w.nWrites + 1,
            trace := w.trace ++ [Event.write bytes w.lpm] })

/-- Source lines 211-221: sends the fixed 6-byte vendor page-switch
command; a negative transport result is returned unchanged, success maps
to 0. -/
def ili9806e_switch_page (tr : Transport) (w : World) (page : Nat) : Int × World :=
  let r := mipi_dsi_dcs_write_buffer tr w [0xff, 0xff, 0x98, 0x06, 0x04, page % 256]
  if r.1 < 0 then r else (0, r.2)

/-- Source lines 235-245: the 2-byte register-write primitive. -/
def ili9806e_send_cmd_data (tr : Transport) (w : World) (cmd data : Nat) : Int × World :=
  let r := mipi_dsi_dcs_write_buffer tr w [cmd % 256, data % 256]
  if r.1 < 0 then r else (0, r.2)

/-- The tagged union ili9806e_instr (source lines 48-58). -/
inductive ili9806e_instr where
  | switchPage (page : Nat)
  | command (cmd : Nat) (data : Nat)
  deriving Repr, DecidableEq

/-- The bytes an instruction puts on the wire when dispatched. -/
def instrBytes : ili9806e_instr → List Nat
  | .switchPage p => [0xff, 0xff, 0x98, 0x06, 0x04, p % 256]
  | .command c d => [c % 256, d % 256]

/-- The C macro ILI9806E_SWITCH_PAGE_INSTR (source lines 60-66). -/
def ILI9806E_SWITCH_PAGE_INSTR (p : Nat) : ili9806e_instr :=
  ili9806e_instr.switchPage p

/-- The C macro ILI9806E_COMMAND_INSTR (source lines 68-77). -/
def ILI9806E_COMMAND_INSTR (c d : Nat) : ili9806e_instr :=
  ili9806e_instr.command c d

/-- The compiled-in command table ili9806e_init (source lines 79-193).
The entry for register 0x35 is commented out in the source and hence
absent here. -/
def ili9806e_init : List ili9806e_instr := [
  ILI9806E_SWITCH_PAGE_INSTR 0x01,
  ILI9806E_COMMAND_INSTR 0x08 0x10,
  ILI9806E_COMMAND_INSTR 0x21 0x01,
  ILI9806E_COMMAND_INSTR 0x30 0x02,
  ILI9806E_COMMAND_INSTR 0x31 0x02,
  ILI9806E_COMMAND_INSTR 0x40 0x16,
  ILI9806E_COMMAND_INSTR 0x41 0x33,
  ILI9806E_COMMAND_INSTR 0x42 0x02,
  ILI9806E_COMMAND_INSTR 0x43 0x09,
  ILI9806E_COMMAND_INSTR 0x44 0x09,
  ILI9806E_COMMAND_INSTR 0x50 0x78,
  ILI9806E_COMMAND_INSTR 0x51 0x78,
  ILI9806E_COMMAND_INSTR 0x52 0x00,
  ILI9806E_COMMAND_INSTR 0x53 0x5E,
  ILI9806E_COMMAND_INSTR 0x60 0x07,
  ILI9806E_COMMAND_INSTR 0x61 0x00,
  ILI9806E_COMMAND_INSTR 0x62 0x08,
  ILI9806E_COMMAND_INSTR 0x63 0x00,
  ILI9806E_SWITCH_PAGE_INSTR 0x01,
  ILI9806E_COMMAND_INSTR 0xA0 0x00,
  ILI9806E_COMMAND_INSTR 0xA1 0x1B,
  ILI9806E_COMMAND_INSTR 0xA2 0x24,
  ILI9806E_COMMAND_INSTR 0xA3 0x11,
  ILI9806E_COMMAND_INSTR 0xA4 0x07,
  ILI9806E_COMMAND_INSTR 0xA5 0x0C,
  ILI9806E_COMMAND_INSTR 0xA6 0x08,
  ILI9806E_COMMAND_INSTR 0xA7 0x05,
  ILI9806E_COMMAND_INSTR 0xA8 0x06,
  ILI9806E_COMMAND_INSTR 0xA9 0x0B,
  ILI9806E_COMMAND_INSTR 0xAA 0x0E,
  ILI9806E_COMMAND_INSTR 0xAB 0x07,
  ILI9806E_COMMAND_INSTR 0xAC 0x0E,
  ILI9806E_COMMAND_INSTR 0xAD 0x12,
  ILI9806E_COMMAND_INSTR 0xAE 0x0C,
  ILI9806E_COMMAND_INSTR 0xAF 0x00,
  ILI9806E_COMMAND_INSTR 0xC0 0x00,
  ILI9806E_COMMAND_INSTR 0xC1 0x1C,
  ILI9806E_COMMAND_INSTR 0xC2 0x24,
  ILI9806E_COMMAND_INSTR 0xC3 0x11,
  ILI9806E_COMMAND_INSTR 0xC4 0x07,
  ILI9806E_COMMAND_INSTR 0xC5 0x0C,
  ILI9806E_COMMAND_INSTR 0xC6 0x08,
  ILI9806E_COMMAND_INSTR 0xC7 0x06,
  ILI9806E_COMMAND_INSTR 0xC8 0x07,
  ILI9806E_COMMAND_INSTR 0xC9 0x0A,
  ILI9806E_COMMAND_INSTR 0xCA 0x0E,
  ILI9806E_COMMAND_INSTR 0xCB 0x07,
  ILI9806E_COMMAND_INSTR 0xCC 0x0D,
  ILI9806E_COMMAND_INSTR 0xCD 0x11,
  ILI9806E_COMMAND_INSTR 0xCE 0x0C,
  ILI9806E_COMMAND_INSTR 0xCF 0x00,
  ILI9806E_SWITCH_PAGE_INSTR 0x06,
  ILI9806E_COMMAND_INSTR 0x00 0x20,
  ILI9806E_COMMAND_INSTR 0x01 0x04,
  ILI9806E_COMMAND_INSTR 0x02 0x00,
  ILI9806E_COMMAND_INSTR 0x03 0x00,
  ILI9806E_COMMAND_INSTR 0x04 0x16,
  ILI9806E_COMMAND_INSTR 0x05 0x16,
  ILI9806E_COMMAND_INSTR 0x06 0x88,
  ILI9806E_COMMAND_INSTR 0x07 0x02,
  ILI9806E_COMMAND_INSTR 0x08 0x01,
  ILI9806E_COMMAND_INSTR 0x09 0x00,
  ILI9806E_COMMAND_INSTR 0x0A 0x00,
  ILI9806E_COMMAND_INSTR 0x0B 0x00,
  ILI9806E_COMMAND_INSTR 0x0C 0x16,
  ILI9806E_COMMAND_INSTR 0x0D 0x16,
  ILI9806E_COMMAND_INSTR 0x0E 0x00,
  ILI9806E_COMMAND_INSTR 0x0F 0x00,
  ILI9806E_COMMAND_INSTR 0x10 0x50,
  ILI9806E_COMMAND_INSTR 0x11 0x52,
  ILI9806E_COMMAND_INSTR 0x12 0x00,
  ILI9806E_COMMAND_INSTR 0x13 0x00,
  ILI9806E_COMMAND_INSTR 0x14 0x00,
  ILI9806E_COMMAND_INSTR 0x15 0x43,
  ILI9806E_COMMAND_INSTR 0x16 0x0B,
  ILI9806E_COMMAND_INSTR 0x17 0x00,
  ILI9806E_COMMAND_INSTR 0x18 0x00,
  ILI9806E_COMMAND_INSTR 0x19 0x00,
  ILI9806E_COMMAND_INSTR 0x1A 0x00,
  ILI9806E_COMMAND_INSTR 0x1B 0x00,
  ILI9806E_COMMAND_INSTR 0x1C 0x00,
  ILI9806E_COMMAND_INSTR 0x1D 0x00,
  ILI9806E_COMMAND_INSTR 0x20 0x01,
  ILI9806E_COMMAND_INSTR 0x21 0x23,
  ILI9806E_COMMAND_INSTR 0x22 0x45,
  ILI9806E_COMMAND_INSTR 0x23 0x67,
  ILI9806E_COMMAND_INSTR 0x24 0x01,
  ILI9806E_COMMAND_INSTR 0x25 0x23,
  ILI9806E_COMMAND_INSTR 0x26 0x45,
  ILI9806E_COMMAND_INSTR 0x27 0x67,
  ILI9806E_COMMAND_INSTR 0x30 0x13,
  ILI9806E_COMMAND_INSTR 0x31 0x11,
  ILI9806E_COMMAND_INSTR 0x32 0x00,
  ILI9806E_COMMAND_INSTR 0x33 0x22,
  ILI9806E_COMMAND_INSTR 0x34 0x22,
  ILI9806E_COMMAND_INSTR 0x36 0x22,
  ILI9806E_COMMAND_INSTR 0x37 0xAA,
  ILI9806E_COMMAND_INSTR 0x38 0xBB,
  ILI9806E_COMMAND_INSTR 0x39 0x66,
  ILI9806E_COMMAND_INSTR 0x3A 0x22,
  ILI9806E_COMMAND_INSTR 0x3B 0x22,
  ILI9806E_COMMAND_INSTR 0x3C 0x22,
  ILI9806E_COMMAND_INSTR 0x3D 0x22,
  ILI9806E_COMMAND_INSTR 0x3E 0x22,
  ILI9806E_COMMAND_INSTR 0x3F 0x22,
  ILI9806E_COMMAND_INSTR 0x40 0x22,
  ILI9806E_SWITCH_PAGE_INSTR 0x07,
  ILI9806E_COMMAND_INSTR 0x17 0x22,
  ILI9806E_COMMAND_INSTR 0x02 0x77,
  ILI9806E_SWITCH_PAGE_INSTR 0x00,
  ILI9806E_COMMAND_INSTR 0x11 0x00,
  ILI9806E_COMMAND_INSTR 0x29 0x00]

/-- The for-loop of ili9806e_init_sequence (source lines 258-273):
dispatch each instruction in table order, and on a non-zero result stop,
log the failing index, and return the result. `i` mirrors the loop
counter (used only in the log). -/
def ili9806e_run_table (tr : Transport) :
    List ili9806e_instr → Nat → World → Int × World
  | [], _, w => (0, w)
  | ins :: rest, i, w =>
    let r : Int × World :=
      match ins with
      | .switchPage p => ili9806e_switch_page tr w p
      | .command c d => ili9806e_send_cmd_data tr w c d
    if r.1 ≠ 0 then
      (r.1, { r.2 with trace := r.2.trace ++ [Event.logIndex i r.1] })
    else
      ili9806e_run_table tr rest (i + 1) r.2

/-- MIPI_DCS_SET_TEAR_ON. -/
def MIPI_DCS_SET_TEAR_ON : Nat := 0x35

/-- Source lines 247-307: run the table from index 0, then (the \x23if-0
diagnostic block being compiled out) send the tear-effect-on command. -/
def ili9806e_init_sequence (tr : Transport) (w : World) : Int × World :=
  let r := ili9806e_run_table tr ili9806e_init 0 w
  if r.1 ≠ 0 then r
  else
    let r2 := ili9806e_send_cmd_data tr r.2 MIPI_DCS_SET_TEAR_ON 0x22
    if r2.1 ≠ 0 then r2 else (0, r2.2)

/-- backlight_enable: external collaborator, modelled as succeeding. -/
def backlight_enable (w : World) : Int × World :=
  (0, { w with trace := w.trace ++ [Event.backlightOn] })

/-- Source lines 339-361: run the init sequence; on failure return the
error before touching the backlight; otherwise enable the backlight. -/
def ili9806e_enable (tr : Transport) (w : World) : Int × World :=
  let r := ili9806e_init_sequence tr w
  if r.1 < 0 then r
  else
    let r2 := backlight_enable r.2
    if r2.1 ≠ 0 then r2 else (0, r2.2)

/-- The magic auxiliary GPIO number (source line 28). -/
def DSI_EN : Nat := 11

/-- Source lines 309-337: gpio_request(DSI_EN) (failure logged,
non-fatal), gpio_direction_output, reset asserted low, regulator_enable
(failure returned at once — without gpio_free), msleep(20), reset
released high, msleep(120) (tRT max), gpio_free(DSI_EN), return 0.
`g` is the gpio_request result, `r` the regulator_enable result. -/
def ili9806e_prepare (g r : Int) (w : World) : Int × World :=
  let w1 :=
    if g ≠ 0 then { w with trace := w.trace ++ [Event.logGpioReqFail g] }
    else { w with gpioHeld := true, trace := w.trace ++ [Event.gpioRequest DSI_EN] }
  let w2 := { w1 with trace := w1.trace ++ [Event.gpioDirOut DSI_EN 1, Event.resetSet 0] }
  if r ≠ 0 then (r, w2)
  else
    (0, { w2 with gpioHeld := false,
                  trace := w2.trace ++ [Event.railEnable, Event.sleep 20,
                                        Event.resetSet 1, Event.sleep 120,
                                        Event.gpioFree DSI_EN] })

/-- backlight_disable: external collaborator. -/
def backlight_disable (w : World) : World :=
  { w with trace := w.trace ++ [Event.backlightOff] }

/-- mipi_dsi_dcs_set_display_off: DCS 0x28 over the transport. -/
def mipi_dsi_dcs_set_display_off (tr : Transport) (w : World) : Int × World :=
  let r := mipi_dsi_dcs_write_buffer tr w [0x28]
  if r.1 < 0 then r else (0, r.2)

/-- Source lines 409-415: disable backlight, then display off. -/
def ili9806e_disable (tr : Transport) (w : World) : Int × World :=
  mipi_dsi_dcs_set_display_off tr (backlight_disable w)

/-- mipi_dsi_dcs_enter_sleep_mode: DCS 0x10 over the transport. -/
def mipi_dsi_dcs_enter_sleep_mode (tr : Transport) (w : World) : Int × World :=
  let r := mipi_dsi_dcs_write_buffer tr w [0x10]
  if r.1 < 0 then r else (0, r.2)

/-- regulator_disable: external collaborator (result ignored by the
source). -/
def regulator_disable (w : World) : World :=
  { w with trace := w.trace ++ [Event.railDisable] }

/-- Source lines 417-428: enter sleep mode (result ignored), disable the
power rail (result ignored), return 0. -/
def ili9806e_unprepare (tr : Transport) (w : World) : Int × World :=
  let r := mipi_dsi_dcs_enter_sleep_mode tr w
  (0, regulator_disable r.2)

/-- mode_flags &= ~MIPI_DSI_MODE_LPM on the u32-wide flag word. -/
def clearLPM (m : Nat) : Nat := m &&& ((2 ^ 32 - 1) ^^^ MIPI_DSI_MODE_LPM)

/-- mipi_dsi_dcs_get_display_brightness: one transport call; on success
the panel reports its brightness register (u16). -/
def mipi_dsi_dcs_get_display_brightness (tr : Transport) (w : World) :
    Int × Nat × World :=
  let r := tr w.nWrites
  let w1 := { w with nWrites := w.nWrites + 1,
                     trace := w.trace ++ [Event.readBrightness w.lpm] }
  if r < 0 then (r, 0, w1) else (0, w.panelReg % 65536, w1)

/-- Source lines 363-383: clear the LPM bit, read the wire brightness;
on success store the full u16 value into bl->props.brightness and return
brightness & 0xff. -/
def ili9806e_bl_get_brightness (tr : Transport) (w : World) : Int × World :=
  let w0 := { w with modeFlags := clearLPM w.modeFlags }
  let r := mipi_dsi_dcs_get_display_brightness tr w0
  if r.1 < 0 then (r.1, r.2.2)
  else (Int.ofNat (r.2.1 % 256), { r.2.2 with blBrightness := r.2.1 })

/-- mipi_dsi_dcs_set_display_brightness: one transport call writing the
u16 value; the panel latches it on success (echo transport model). -/
def mipi_dsi_dcs_set_display_brightness (tr : Transport) (w : World) (v : Nat) :
    Int × World :=
  let r := tr w.nWrites
  let w1 := { w with nWrites := w.nWrites + 1,
                     trace := w.trace ++ [Event.writeBrightness (v % 65536) w.lpm],
                     panelReg := if r < 0 then w.panelReg else v % 65536 }
  if r < 0 then (r, w1) else (0, w1)

/-- Source lines 385-402: clear the LPM bit, write bl->props.brightness
to the panel. -/
def ili9806e_bl_update_status (tr : Transport) (w : World) : Int × World :=
  let w0 := { w with modeFlags := clearLPM w.modeFlags }
  let r := mipi_dsi_dcs_set_display_brightness tr w0 w0.blBrightness
  if r.1 < 0 then r else (0, r.2)

/-- set_brightness(v): the backlight core stores v into
bl->props.brightness and invokes update_status (host contract, spec
section 6). -/
def set_brightness (tr : Transport) (w : World) (v : Nat) : Int × World :=
  ili9806e_bl_update_status tr { w with blBrightness := v }

/-- The panel's externally observable lifecycle states (spec section 3). -/
inductive PanelState where
  | Unprepared
  | Prepared
  | Enabled
  | Disabled
  deriving Repr, DecidableEq

/-- The host lifecycle calls routed through ili9806e_funcs (source lines
484-490). -/
inductive LifecycleCall where
  | prepare
  | enable
  | disable
  | unprepare
  deriving Repr, DecidableEq

/-- Result of a lifecycle call: success, rejection of a (state, call)
pair outside the transition table, or the error code of a failed
transition action. -/
inductive LifecycleResult where
  | ok
  | invalidStateTransition
  | err (e : Int)
  deriving Repr, DecidableEq

/-- Modelled from the spec: the PowerLifecycleStateMachine's transition
guard. The source file contains no state tracking — the guard lives in
the drm_panel caller layer, which is code of this repository outside
src/ — so the accepted (state, call) pairs are taken from the spec's
transition table; the actions of each accepted transition are the
embedded source functions, a failed action leaves the state unchanged
(the transition "does not complete"), and a rejected call performs no
hardware action. `g`/`rr` are the gpio_request and regulator_enable
results used by prepare. -/
def lifecycle_step (tr : Transport) (g rr : Int) (s : PanelState) (w : World)
    (c : LifecycleCall) : PanelState × LifecycleResult × World :=
  match s, c with
  | .Unprepared, .prepare =>
    let r := ili9806e_prepare g rr w
    if r.1 = 0 then (.Prepared, .ok, r.2) else (.Unprepared, .err r.1, r.2)
  | .Prepared, .enable =>
    let r := ili9806e_enable tr w
    if r.1 = 0 then (.Enabled, .ok, r.2) else (.Prepared, .err r.1, r.2)
  | .Enabled, .disable =>
    let r := ili9806e_disable tr w
    if r.1 = 0 then (.Disabled, .ok, r.2) else (.Enabled, .err r.1, r.2)
  | .Disabled, .unprepare =>
    let r := ili9806e_unprepare tr w
    if r.1 = 0 then (.Unprepared, .ok, r.2) else (.Disabled, .err r.1, r.2)
  | _, _ => (s, .invalidStateTransition, w)

/-- Modelled from the spec: the set of accepted (state, call) pairs of
the transition table. -/
def validPair : PanelState → LifecycleCall → Bool
  | .Unprepared, .prepare => true
  | .Prepared, .enable => true
  | .Enabled, .disable => true
  | .Disabled, .unprepare => true
  | _, _ => false

/-- One host-visible operation on the panel handle, with the external
resource results a prepare call consumes. -/
inductive PanelOp where
  | prep (g r : Int)
  | enable
  | disable
  | unprepare
  | getBrightness
  | setBrightness (v : Nat)
  deriving Repr, DecidableEq

/-- The state effect of one operation (results discarded). -/
def runOp (tr : Transport) (w : World) : PanelOp → World
  | .prep g r => (ili9806e_prepare g r w).2
  | .enable => (ili9806e_enable tr w).2
  | .disable => (ili9806e_disable tr w).2
  | .unprepare => (ili9806e_unprepare tr w).2
  | .getBrightness => (ili9806e_bl_get_brightness tr w).2
  | .setBrightness v => (set_brightness tr w v).2

/-- The state effect of a sequence of operations. -/
def runOps (tr : Transport) : List PanelOp → World → World
  | [], w => w
  | op :: rest, w => runOps tr rest (runOp tr w op)

/-- The always-succeeding transport. -/
def trOk : Transport := fun _ => 0

/-- A transport whose 6th call (index 5) fails with -5; earlier calls
succeed. -/
def trFailAt5 : Transport := fun n => if n < 5 then 0 else -5

/-- A transport failing from the first call on. -/
def trFailAt0 : Transport := fun _ => -5

/-- A transport that fails exactly on its 5th call (index 4). -/
def trFailAt4 : Transport := fun n => if n = 4 then -5 else 0

/-- The handle state right after probe (source lines 509, 539):
mode_flags = MIPI_DSI_MODE_VIDEO | MIPI_DSI_MODE_VIDEO_SYNC_PULSE
(bits 0 and 2, LPM clear), brightness 255. -/
def wProbe : World :=
  { modeFlags := 5, blBrightness := 255, panelReg := 0, gpioHeld := false,
    nWrites := 0, trace := [] }

/-- The per-instruction trace a full table walk leaves, all writes
carrying the link-mode bit `b` in effect throughout. -/
def tableTrace (b : Bool) : List Event :=
  ili9806e_init.map (fun ins => Event.write (instrBytes ins) b)

/-- Events the revision-B timing claim is about: rail enable, waits, and
reset release (reset set high). -/
def timingEvent : Event → Bool
  | .railEnable => true
  | .sleep _ => true
  | .resetSet 1 => true
  | _ => false

/-- A transport write issued while the low-power-mode bit was set. -/
def lpmWrite : Event → Bool
  | .write _ true => true
  | .writeBrightness _ true => true
  | _ => false

/-- Any transport write event. -/
def isWrite : Event → Bool
  | .write _ _ => true
  | .writeBrightness _ _ => true
  | _ => false

/-! Helper lemmas about the primitives and the table walk. -/

theorem switch_page_eq (tr : Transport) (w : World) (p : Nat) :
    ili9806e_switch_page tr w p =
      (if tr w.nWrites < 0 then tr w.nWrites else 0,
       { w with nWrites := w.nWrites + 1,
                trace := w.trace ++
                  [Event.write [0xff, 0xff, 0x98, 0x06, 0x04, p % 256] w.lpm] }) := by
  unfold ili9806e_switch_page mipi_dsi_dcs_write_buffer
  by_cases h : tr w.nWrites < 0 <;> simp [h]

theorem send_cmd_data_eq (tr : Transport) (w : World) (c d : Nat) :
    ili9806e_send_cmd_data tr w c d =
      (if tr w.nWrites < 0 then tr w.nWrites else 0,
       { w with nWrites := w.nWrites + 1,
                trace := w.trace ++ [Event.write [c % 256, d % 256] w.lpm] }) := by
  unfold ili9806e_send_cmd_data mipi_dsi_dcs_write_buffer
  by_cases h : tr w.nWrites < 0 <;> simp [h]

theorem dispatch_eq (tr : Transport) (w : World) (ins : ili9806e_instr) :
    (match ins with
     | .switchPage p => ili9806e_switch_page tr w p
     | .command c d => ili9806e_send_cmd_data tr w c d) =
      (if tr w.nWrites < 0 then tr w.nWrites else 0,
       { w with nWrites := w.nWrites + 1,
                trace := w.trace ++ [Event.write (instrBytes ins) w.lpm] }) := by
  cases ins <;> simp [switch_page_eq, send_cmd_data_eq, instrBytes]

theorem run_table_ok (tr : Transport) (t : List ili9806e_instr) :
    ∀ (i : Nat) (w : World), (∀ j, j < t.length → 0 ≤ tr (w.nWrites + j)) →
      ili9806e_run_table tr t i w =
        (0, { w with nWrites := w.nWrites + t.length,
                     trace := w.trace ++
                       t.map (fun ins => Event.write (instrBytes ins) w.lpm) }) := by
  induction t with
  | nil => intro i w _; simp [ili9806e_run_table]
  | cons ins rest ih =>
    intro i w h
    have h0 : 0 ≤ tr (w.nWrites + 0) := h 0 (by simp)
    rw [Nat.add_zero] at h0
    simp only [ili9806e_run_table]
    rw [dispatch_eq]
    rw [if_neg (not_lt.mpr h0)]
    rw [if_neg (by simp)]
    rw [ih (i + 1) _ (by
      intro j hj
      have := h (j + 1) (by simpa using Nat.succ_lt_succ hj)
      simpa [Nat.add_comm, Nat.add_assoc, Nat.add_left_comm] using this)]
    simp [World.lpm, Nat.add_assoc, Nat.add_comm 1 rest.length]

theorem run_table_fail (tr : Transport) (t : List ili9806e_instr) :
    ∀ (i : Nat) (w : World) (k : Nat), k < t.length →
      tr (w.nWrites + k) < 0 →
      (∀ j, j < k → 0 ≤ tr (w.nWrites + j)) →
      ili9806e_run_table tr t i w =
        (tr (w.nWrites + k),
         { w with nWrites := w.nWrites + (k + 1),
                  trace := w.trace ++
                    ((t.take (k + 1)).map
                      (fun ins => Event.write (instrBytes ins) w.lpm)) ++
                    [Event.logIndex (i + k) (tr (w.nWrites + k))] }) := by
  induction t with
  | nil => intro i w k hk; simp at hk
  | cons ins rest ih =>
    intro i w k hk hfail hok
    simp only [ili9806e_run_table]
    rw [dispatch_eq]
    cases k with
    | zero =>
      rw [Nat.add_zero] at hfail
      rw [if_pos hfail]
      rw [if_pos (Int.ne_of_lt hfail)]
      simp
    | succ k =>
      have h0 : 0 ≤ tr w.nWrites := by
        have := hok 0 (Nat.succ_pos k); simpa using this
      rw [if_neg (not_lt.mpr h0)]
      rw [if_neg (by simp)]
      rw [ih (i + 1) _ k
        (by simpa using Nat.lt_of_succ_lt_succ hk)
        (by simpa [Nat.add_comm, Nat.add_assoc, Nat.add_left_comm] using hfail)
        (by
          intro j hj
          have := hok (j + 1) (Nat.succ_lt_succ hj)
          simpa [Nat.add_comm, Nat.add_assoc, Nat.add_left_comm] using this)]
      simp [World.lpm, Nat.add_comm, Nat.add_assoc, Nat.add_left_comm,
            Nat.succ_eq_add_one]

theorem run_table_preserves (tr : Transport) (t : List ili9806e_instr) :
    ∀ (i : Nat) (w : World),
      (ili9806e_run_table tr t i w).2.modeFlags = w.modeFlags ∧
      (ili9806e_run_table tr t i w).2.panelReg = w.panelReg ∧
      (ili9806e_run_table tr t i w).2.gpioHeld = w.gpioHeld ∧
      (ili9806e_run_table tr t i w).2.blBrightness = w.blBrightness := by
  induction t with
  | nil => intro i w; simp [ili9806e_run_table]
  | cons ins rest ih =>
    intro i w
    simp only [ili9806e_run_table]
    rw [dispatch_eq]
    by_cases hc : (if tr w.nWrites < 0 then tr w.nWrites else 0) ≠ 0
    · rw [if_pos hc]; simp
    · rw [if_neg hc]
      simpa using ih (i + 1)
        { w with nWrites := w.nWrites + 1,
                 trace := w.trace ++ [Event.write (instrBytes ins) w.lpm] }

theorem init_sequence_trOk (w : World) :
    ili9806e_init_sequence trOk w =
      (0, { w with nWrites := w.nWrites + (ili9806e_init.length + 1),
                   trace := w.trace ++ tableTrace w.lpm ++
                     [Event.write [0x35, 0x22] w.lpm] }) := by
  unfold ili9806e_init_sequence
  rw [run_table_ok trOk ili9806e_init 0 w (by intro j _; simp [trOk])]
  rw [if_neg (by simp)]
  rw [send_cmd_data_eq]
  simp [trOk, World.lpm, tableTrace, MIPI_DCS_SET_TEAR_ON, Nat.add_assoc]

theorem enable_trOk (w : World) :
    ili9806e_enable trOk w =
      (0, { w with nWrites := w.nWrites + (ili9806e_init.length + 1),
                   trace := w.trace ++ tableTrace w.lpm ++
                     [Event.write [0x35, 0x22] w.lpm, Event.backlightOn] }) := by
  unfold ili9806e_enable
  rw [init_sequence_trOk]
  rw [if_neg (by simp)]
  unfold backlight_enable
  simp

theorem init_sequence_fail (tr : Transport) (w : World) (k : Nat)
    (hk : k < ili9806e_init.length)
    (hfail : tr (w.nWrites + k) < 0)
    (hok : ∀ j, j < k → 0 ≤ tr (w.nWrites + j)) :
    ili9806e_init_sequence tr w =
      (tr (w.nWrites + k),
       { w with nWrites := w.nWrites + (k + 1),
                trace := w.trace ++
                  ((ili9806e_init.take (k + 1)).map
                    (fun ins => Event.write (instrBytes ins) w.lpm)) ++
                  [Event.logIndex k (tr (w.nWrites + k))] }) := by
  unfold ili9806e_init_sequence
  rw [run_table_fail tr ili9806e_init 0 w k hk hfail hok]
  rw [if_pos (Int.ne_of_lt hfail)]
  simp

theorem enable_fail (tr : Transport) (w : World) (k : Nat)
    (hk : k < ili9806e_init.length)
    (hfail : tr (w.nWrites + k) < 0)
    (hok : ∀ j, j < k → 0 ≤ tr (w.nWrites + j)) :
    ili9806e_enable tr w =
      (tr (w.nWrites + k),
       { w with nWrites := w.nWrites + (k + 1),
                trace := w.trace ++
                  ((ili9806e_init.take (k + 1)).map
                    (fun ins => Event.write (instrBytes ins) w.lpm)) ++
                  [Event.logIndex k (tr (w.nWrites + k))] }) := by
  unfold ili9806e_enable
  rw [init_sequence_fail tr w k hk hfail hok]
  rw [if_pos hfail]

/-! Further helper lemmas: link-mode bit arithmetic and
field-preservation of each operation. -/

theorem clearLPM_bit11 (m : Nat) : (clearLPM m).testBit 11 = false := by
  unfold clearLPM MIPI_DSI_MODE_LPM
  rw [Nat.testBit_and]
  have hmask : Nat.testBit ((2 ^ 32 - 1) ^^^ 2 ^ 11) 11 = false := by decide
  rw [hmask, Bool.and_false]

theorem testBit_clearLPM (m : Nat) (hm : m < 2 ^ 32) (i : Nat) (hi : i ≠ 11) :
    (clearLPM m).testBit i = m.testBit i := by
  unfold clearLPM MIPI_DSI_MODE_LPM
  rcases Nat.lt_or_ge i 32 with h32 | h32
  · rw [Nat.testBit_and]
    have hmask : Nat.testBit ((2 ^ 32 - 1) ^^^ 2 ^ 11) i = true := by
      rw [Nat.testBit_xor, Nat.testBit_two_pow_sub_one, Nat.testBit_two_pow]
      simp [h32, Ne.symm hi]
    rw [hmask, Bool.and_true]
  · have h1 : m.testBit i = false :=
      Nat.testBit_lt_two_pow
        (lt_of_lt_of_le hm (Nat.pow_le_pow_right (by norm_num) h32))
    simp [Nat.testBit_and, h1]

theorem prepare_modeFlags (g r : Int) (w : World) :
    (ili9806e_prepare g r w).2.modeFlags = w.modeFlags := by
  unfold ili9806e_prepare
  by_cases hg : g ≠ 0 <;> by_cases hr : r ≠ 0 <;> simp [hg, hr]

theorem init_sequence_modeFlags (tr : Transport) (w : World) :
    (ili9806e_init_sequence tr w).2.modeFlags = w.modeFlags := by
  unfold ili9806e_init_sequence
  have hp := (run_table_preserves tr ili9806e_init 0 w).1
  by_cases h : (ili9806e_run_table tr ili9806e_init 0 w).1 ≠ 0
  · simp [h, hp]
  · rw [if_neg h, send_cmd_data_eq]
    by_cases hc : tr (ili9806e_run_table tr ili9806e_init 0 w).2.nWrites < 0
    · simp [hc, hp, Int.ne_of_lt hc]
    · simp [hc, hp]

theorem enable_modeFlags (tr : Transport) (w : World) :
    (ili9806e_enable tr w).2.modeFlags = w.modeFlags := by
  unfold ili9806e_enable
  have hp := init_sequence_modeFlags tr w
  by_cases h : (ili9806e_init_sequence tr w).1 < 0 <;>
    simp [h, hp, backlight_enable]

theorem disable_modeFlags (tr : Transport) (w : World) :
    (ili9806e_disable tr w).2.modeFlags = w.modeFlags := by
  unfold ili9806e_disable mipi_dsi_dcs_set_display_off backlight_disable
    mipi_dsi_dcs_write_buffer
  by_cases h : tr (w.nWrites) < 0 <;> simp [h]

theorem unprepare_modeFlags (tr : Transport) (w : World) :
    (ili9806e_unprepare tr w).2.modeFlags = w.modeFlags := by
  unfold ili9806e_unprepare mipi_dsi_dcs_enter_sleep_mode regulator_disable
    mipi_dsi_dcs_write_buffer
  by_cases h : tr w.nWrites < 0 <;> simp [h]

theorem get_brightness_modeFlags (tr : Transport) (w : World) :
    (ili9806e_bl_get_brightness tr w).2.modeFlags = clearLPM w.modeFlags := by
  unfold ili9806e_bl_get_brightness mipi_dsi_dcs_get_display_brightness
  by_cases h : tr w.nWrites < 0 <;> simp [h]

theorem update_status_modeFlags (tr : Transport) (w : World) :
    (ili9806e_bl_update_status tr w).2.modeFlags = clearLPM w.modeFlags := by
  unfold ili9806e_bl_update_status mipi_dsi_dcs_set_display_brightness
  by_cases h : tr w.nWrites < 0 <;> simp [h]

theorem set_brightness_modeFlags (tr : Transport) (w : World) (v : Nat) :
    (set_brightness tr w v).2.modeFlags = clearLPM w.modeFlags := by
  unfold set_brightness
  rw [update_status_modeFlags]

theorem runOp_lpm_clear (tr : Transport) (w : World) (op : PanelOp)
    (h : w.modeFlags.testBit 11 = false) :
    (runOp tr w op).modeFlags.testBit 11 = false := by
  cases op <;>
    simp [runOp, prepare_modeFlags, enable_modeFlags, disable_modeFlags,
          unprepare_modeFlags, get_brightness_modeFlags,
          set_brightness_modeFlags, clearLPM_bit11, h]

theorem runOps_lpm_clear (tr : Transport) (ops : List PanelOp) :
    ∀ w : World, w.modeFlags.testBit 11 = false →
      (runOps tr ops w).modeFlags.testBit 11 = false := by
  induction ops with
  | nil => intro w h; simpa [runOps] using h
  | cons op rest ih =>
    intro w h
    simp only [runOps]
    exact ih _ (runOp_lpm_clear tr w op h)

/-! The claim theorems. -/

/-- C5: for every page byte p, switch_page writes exactly the 6-byte
buffer 0xFF 0xFF 0x98 0x06 0x04 p to the transport in a single call (no
retry), and a transport failure (negative result) is propagated
unchanged while success maps to 0. -/
theorem claim_C5_switch_page (tr : Transport) (w : World) (p : Nat) :
    ili9806e_switch_page tr w p =
      (if tr w.nWrites < 0 then tr w.nWrites else 0,
       { w with nWrites := w.nWrites + 1,
                trace := w.trace ++
                  [Event.write [0xff, 0xff, 0x98, 0x06, 0x04, p % 256] w.lpm] }) :=
  switch_page_eq tr w p

/-- C8: unprepare always issues the enter-sleep command (DCS 0x10) to
the transport strictly before disabling the power rail — the trace it
appends is exactly [enter-sleep write, rail-disable] — for every prior
history `w` and every transport, and through the lifecycle machine it
takes Disabled to Unprepared. -/
theorem claim_C8_unprepare_order (tr : Transport) (g rr : Int) (w : World) :
    ili9806e_unprepare tr w =
      (0, { w with nWrites := w.nWrites + 1,
                   trace := w.trace ++
                     [Event.write [0x10] w.lpm, Event.railDisable] }) ∧
    lifecycle_step tr g rr PanelState.Disabled w LifecycleCall.unprepare =
      (PanelState.Unprepared, LifecycleResult.ok,
       { w with nWrites := w.nWrites + 1,
                trace := w.trace ++
                  [Event.write [0x10] w.lpm, Event.railDisable] }) := by
  have h1 : ili9806e_unprepare tr w =
      (0, { w with nWrites := w.nWrites + 1,
                   trace := w.trace ++
                     [Event.write [0x10] w.lpm, Event.railDisable] }) := by
    unfold ili9806e_unprepare mipi_dsi_dcs_enter_sleep_mode regulator_disable
      mipi_dsi_dcs_write_buffer
    by_cases h : tr w.nWrites < 0 <;> simp [h]
  refine ⟨h1, ?_⟩
  simp only [lifecycle_step, h1]
  simp

/-- C6: under the revision-B timing policy (the one the source encodes:
rail-enable, tRT waits), a prepare whose regulator_enable succeeds
returns 0 and its appended events, restricted to rail-enable, waits and
reset-release, are exactly rail-enable, a 20 ms wait, reset-release, a
120 ms wait, in that order; through the lifecycle machine it takes
Unprepared to Prepared. msleep(n) waits at least n ms, so the two waits
are ≥ 20 ms and ≥ 120 ms. -/
theorem claim_C6_prepare_revB_order (tr : Transport) (g : Int) (w : World) :
    (ili9806e_prepare g 0 w).1 = 0 ∧
    ((ili9806e_prepare g 0 w).2.trace.drop w.trace.length).filter timingEvent =
      [Event.railEnable, Event.sleep 20, Event.resetSet 1, Event.sleep 120] ∧
    (lifecycle_step tr g 0 PanelState.Unprepared w LifecycleCall.prepare).1 =
      PanelState.Prepared := by
  have h1 : (ili9806e_prepare g 0 w).1 = 0 := by
    unfold ili9806e_prepare
    by_cases hg : g ≠ 0 <;> simp [hg]
  refine ⟨h1, ?_, ?_⟩
  · unfold ili9806e_prepare
    by_cases hg : g ≠ 0 <;>
      simp [hg, List.append_assoc, List.drop_left, timingEvent,
            List.filter_cons, List.filter_append]
  · simp only [lifecycle_step, h1]
    simp

/-- C4: for every value v, set_brightness(v) followed by
get_brightness() against the echoing transport returns v & 0xFF: the
wire value round-trips and get_brightness masks it to its low byte. -/
theorem claim_C4_brightness_roundtrip (v : Nat) (w : World) :
    (ili9806e_bl_get_brightness trOk (set_brightness trOk w v).2).1 =
      Int.ofNat (v &&& 0xFF) := by
  have hand : v &&& 0xFF = v % 256 := by
    have h := Nat.and_pow_two_sub_one_eq_mod v 8
    norm_num at h
    exact h
  simp only [set_brightness, ili9806e_bl_update_status,
    mipi_dsi_dcs_set_display_brightness, ili9806e_bl_get_brightness,
    mipi_dsi_dcs_get_display_brightness, trOk]
  norm_num [hand]

/-- C9 (the claim the code violates, evaluated at the failing input):
when gpio_request succeeds and regulator_enable fails with -5, prepare
returns -5 with the DSI_EN GPIO still requested and no gpio_free in the
trace — the GPIO is held across the call, contradicting release on
every exit path. The non-fatal-acquisition half of the claim does hold:
with gpio_request failing (-16) and the rail succeeding, prepare logs
the failure and still returns 0. -/
theorem claim_C9_gpio_leak_on_rail_failure :
    (ili9806e_prepare 0 (-5) wProbe).1 = -5 ∧
    (ili9806e_prepare 0 (-5) wProbe).2.gpioHeld = true ∧
    Event.gpioFree DSI_EN ∉ (ili9806e_prepare 0 (-5) wProbe).2.trace ∧
    (ili9806e_prepare (-16) 0 wProbe).1 = 0 ∧
    Event.logGpioReqFail (-16) ∈ (ili9806e_prepare (-16) 0 wProbe).2.trace := by
  decide

/-- C1 (amended): for every transport whose first failure is at the
k-th table instruction, ili9806e_init_sequence visits the instructions
in table order — each dispatched to its wire encoding (6-byte page
switch or 2-byte register write) — halts at the failing instruction,
issuing no later instruction, returns the underlying error unchanged,
and reports the failing zero-based index only through the log event;
the returned value carries the error alone. -/
theorem claim_C1_init_sequence_first_failure (tr : Transport) (w : World)
    (k : Nat)
    (hk : k < ili9806e_init.length)
    (hfail : tr (w.nWrites + k) < 0)
    (hok : ∀ j, j < k → 0 ≤ tr (w.nWrites + j)) :
    ili9806e_init_sequence tr w =
      (tr (w.nWrites + k),
       { w with nWrites := w.nWrites + (k + 1),
                trace := w.trace ++
                  ((ili9806e_init.take (k + 1)).map
                    (fun ins => Event.write (instrBytes ins) w.lpm)) ++
                  [Event.logIndex k (tr (w.nWrites + k))] }) :=
  init_sequence_fail tr w k hk hfail hok

/-- C1 counterexample: the claim that the sequencer "returns the
zero-based index of the failing instruction together with the
underlying error" is false: the C function returns a bare int. Two
transports failing at different instructions (index 0 and index 5) with
the same error code produce identical return values, so the caller
cannot recover the index from the return; the index reaches only the
kernel log. -/
theorem claim_C1_return_lacks_index :
    (ili9806e_init_sequence trFailAt0 wProbe).1 =
      (ili9806e_init_sequence trFailAt5 wProbe).1 ∧
    Event.logIndex 0 (-5) ∈ (ili9806e_init_sequence trFailAt0 wProbe).2.trace ∧
    Event.logIndex 5 (-5) ∈ (ili9806e_init_sequence trFailAt5 wProbe).2.trace := by
  decide

/-- C1 witness: the amended theorem applied to the transport failing
exactly on its 5th call (index 4) from the probe state. -/
theorem claim_C1_witness :
    ((4 : Nat) < ili9806e_init.length ∧ trFailAt4 (wProbe.nWrites + 4) < 0 ∧
     (∀ j, j < 4 → 0 ≤ trFailAt4 (wProbe.nWrites + j))) ∧
    ili9806e_init_sequence trFailAt4 wProbe =
      (trFailAt4 (wProbe.nWrites + 4),
       { wProbe with nWrites := wProbe.nWrites + 5,
                     trace := wProbe.trace ++
                       ((ili9806e_init.take 5).map
                         (fun ins => Event.write (instrBytes ins) wProbe.lpm)) ++
                       [Event.logIndex 4 (trFailAt4 (wProbe.nWrites + 4))] }) := by
  have hok : ∀ j, j < 4 → 0 ≤ trFailAt4 (wProbe.nWrites + j) := by
    intro j hj
    have hne : wProbe.nWrites + j ≠ 4 := by simp [wProbe]; omega
    simp [trFailAt4, hne]
  exact ⟨⟨by decide, by decide, hok⟩,
    claim_C1_init_sequence_first_failure trFailAt4 wProbe 4 (by decide)
      (by decide) hok⟩

/-- C2: the lifecycle machine rejects every (state, call) pair outside
the transition table with invalidStateTransition and no hardware action
(the world is returned untouched); the accepted pairs are exactly the
four of the spec's table; and after a successful enable from Prepared a
second enable (no intervening disable or unprepare) hits state Enabled
and is rejected with invalidStateTransition. -/
theorem claim_C2_transition_table (tr : Transport) (g rr : Int)
    (s : PanelState) (c : LifecycleCall) (w w2 : World) :
    (validPair s c = false →
      lifecycle_step tr g rr s w c =
        (s, LifecycleResult.invalidStateTransition, w)) ∧
    (validPair s c = true ↔
      ((s = PanelState.Unprepared ∧ c = LifecycleCall.prepare) ∨
       (s = PanelState.Prepared ∧ c = LifecycleCall.enable) ∨
       (s = PanelState.Enabled ∧ c = LifecycleCall.disable) ∨
       (s = PanelState.Disabled ∧ c = LifecycleCall.unprepare))) ∧
    ((lifecycle_step trOk g rr PanelState.Prepared w LifecycleCall.enable).1 =
       PanelState.Enabled ∧
     (lifecycle_step trOk g rr
        (lifecycle_step trOk g rr PanelState.Prepared w LifecycleCall.enable).1
        w2 LifecycleCall.enable).2.1 =
       LifecycleResult.invalidStateTransition) := by
  have hen :
      (lifecycle_step trOk g rr PanelState.Prepared w LifecycleCall.enable).1 =
        PanelState.Enabled := by
    simp only [lifecycle_step, enable_trOk]
    simp
  refine ⟨?_, ?_, hen, ?_⟩
  · intro h
    cases s <;> cases c <;> simp_all [validPair, lifecycle_step]
  · cases s <;> cases c <;> simp [validPair]
  · rw [hen]
    simp [lifecycle_step]

/-- C2 witness: enable from Unprepared (an invalid pair) is rejected
with no state change and no action. -/
theorem claim_C2_witness :
    validPair PanelState.Unprepared LifecycleCall.enable = false ∧
    lifecycle_step trOk 0 0 PanelState.Unprepared wProbe LifecycleCall.enable =
      (PanelState.Unprepared, LifecycleResult.invalidStateTransition, wProbe) :=
  ⟨rfl, (claim_C2_transition_table trOk 0 0 PanelState.Unprepared
          LifecycleCall.enable wProbe wProbe).1 rfl⟩

/-- C3: if the transport first fails at the k-th table instruction
while enable runs the sequencer, the enable transition does not
complete — the state stays Prepared, the error carries the transport
result, and the events the failed call appended contain no
backlight-enable; a retried enable from any world against a succeeding
transport reaches Enabled with every table instruction replayed from
index zero, followed by tear-on and backlight-enable. -/
theorem claim_C3_enable_failure_recoverable (tr : Transport) (g rr : Int)
    (w : World) (k : Nat)
    (hk : k < ili9806e_init.length)
    (hfail : tr (w.nWrites + k) < 0)
    (hok : ∀ j, j < k → 0 ≤ tr (w.nWrites + j)) :
    lifecycle_step tr g rr PanelState.Prepared w LifecycleCall.enable =
      (PanelState.Prepared, LifecycleResult.err (tr (w.nWrites + k)),
       { w with nWrites := w.nWrites + (k + 1),
                trace := w.trace ++
                  ((ili9806e_init.take (k + 1)).map
                    (fun ins => Event.write (instrBytes ins) w.lpm)) ++
                  [Event.logIndex k (tr (w.nWrites + k))] }) ∧
    Event.backlightOn ∉
      (((lifecycle_step tr g rr PanelState.Prepared w
          LifecycleCall.enable).2.2.trace).drop w.trace.length) ∧
    (∀ w1 : World,
      lifecycle_step trOk g rr PanelState.Prepared w1 LifecycleCall.enable =
        (PanelState.Enabled, LifecycleResult.ok,
         { w1 with nWrites := w1.nWrites + (ili9806e_init.length + 1),
                   trace := w1.trace ++ tableTrace w1.lpm ++
                     [Event.write [0x35, 0x22] w1.lpm,
                      Event.backlightOn] })) := by
  have he := enable_fail tr w k hk hfail hok
  have h1 : lifecycle_step tr g rr PanelState.Prepared w LifecycleCall.enable =
      (PanelState.Prepared, LifecycleResult.err (tr (w.nWrites + k)),
       { w with nWrites := w.nWrites + (k + 1),
                trace := w.trace ++
                  ((ili9806e_init.take (k + 1)).map
                    (fun ins => Event.write (instrBytes ins) w.lpm)) ++
                  [Event.logIndex k (tr (w.nWrites + k))] }) := by
    simp only [lifecycle_step, he]
    rw [if_neg (Int.ne_of_lt hfail)]
  refine ⟨h1, ?_, ?_⟩
  · rw [h1]
    simp only [List.append_assoc]
    rw [List.drop_left]
    intro hmem
    rcases List.mem_append.mp hmem with h2 | h2
    · rcases List.mem_map.mp h2 with ⟨ins, _, hins⟩
      exact Event.noConfusion hins
    · simp at h2
  · intro w1
    simp only [lifecycle_step, enable_trOk]
    simp

/-- C3 witness: the theorem applied to the transport failing exactly on
its 5th call (index 4) from the probe state, plus the successful retry
reaching Enabled. -/
theorem claim_C3_witness :
    ((4 : Nat) < ili9806e_init.length ∧ trFailAt4 (wProbe.nWrites + 4) < 0) ∧
    (lifecycle_step trFailAt4 0 0 PanelState.Prepared wProbe
       LifecycleCall.enable).1 = PanelState.Prepared ∧
    (lifecycle_step trOk 0 0 PanelState.Prepared wProbe
       LifecycleCall.enable).1 = PanelState.Enabled := by
  have hok : ∀ j, j < 4 → 0 ≤ trFailAt4 (wProbe.nWrites + j) := by
    intro j hj
    have hne : wProbe.nWrites + j ≠ 4 := by simp [wProbe]; omega
    simp [trFailAt4, hne]
  have h := claim_C3_enable_failure_recoverable trFailAt4 0 0 wProbe 4
    (by decide) (by decide) hok
  refine ⟨⟨by decide, by decide⟩, ?_, ?_⟩
  · rw [h.1]
  · rw [h.2.2 wProbe]

set_option maxRecDepth 4000 in
/-- C7 counterexample: the claim that enable first sets the link to
low-power command mode, runs the sequencer, then restores the link mode
is false: from the probe configuration (LPM bit clear) every one of the
113 transport writes enable issues is made with the LPM bit still
clear, and the mode flags are never modified, so no set-then-restore of
the link mode happens around the sequencer. -/
theorem claim_C7_no_lpm_during_enable :
    (ili9806e_enable trOk wProbe).2.modeFlags = wProbe.modeFlags ∧
    ((ili9806e_enable trOk wProbe).2.trace.filter lpmWrite) = [] ∧
    ((ili9806e_enable trOk wProbe).2.trace.filter isWrite).length = 113 := by
  decide

/-- C7 (amended): the enable transition runs the command sequencer over
the full table, then the tear-on write, then enables the backlight, in
that order, moving Prepared to Enabled; it never touches the link mode:
the mode flags are unchanged and every write is issued in whatever link
mode was already in effect. -/
theorem claim_C7_enable_order_no_linkmode_change (g rr : Int) (w : World) :
    ili9806e_enable trOk w =
      (0, { w with nWrites := w.nWrites + (ili9806e_init.length + 1),
                   trace := w.trace ++ tableTrace w.lpm ++
                     [Event.write [0x35, 0x22] w.lpm, Event.backlightOn] }) ∧
    (lifecycle_step trOk g rr PanelState.Prepared w LifecycleCall.enable).1 =
      PanelState.Enabled := by
  refine ⟨enable_trOk w, ?_⟩
  simp only [lifecycle_step, enable_trOk]
  simp

/-- C10: both brightness operations clear the low-power-mode bit of the
mode flags and leave every other bit unchanged; no operation — any
lifecycle call or brightness call, with any resource or transport
results — ever sets the bit again, so once clear it stays clear across
any sequence of later operations (and the enable path preserves the
mode flags exactly); and on a successful read, get_brightness stores
the full unmasked u16 wire value into the backlight state while
returning only its low byte. -/
theorem claim_C10_brightness_clears_lpm (tr : Transport) (w : World)
    (v i : Nat) (hm : w.modeFlags < 2 ^ 32) (hi : i ≠ 11) :
    ((set_brightness tr w v).2.modeFlags).testBit 11 = false ∧
    ((set_brightness tr w v).2.modeFlags).testBit i =
      w.modeFlags.testBit i ∧
    ((ili9806e_bl_get_brightness tr w).2.modeFlags).testBit 11 = false ∧
    ((ili9806e_bl_get_brightness tr w).2.modeFlags).testBit i =
      w.modeFlags.testBit i ∧
    (∀ ops : List PanelOp, w.modeFlags.testBit 11 = false →
      ((runOps tr ops w).modeFlags).testBit 11 = false) ∧
    (ili9806e_enable tr w).2.modeFlags = w.modeFlags ∧
    (0 ≤ tr w.nWrites →
      (ili9806e_bl_get_brightness tr w).2.blBrightness =
        w.panelReg % 65536 ∧
      (ili9806e_bl_get_brightness tr w).1 =
        Int.ofNat (w.panelReg % 65536 % 256)) := by
  refine ⟨?_, ?_, ?_, ?_, ?_, enable_modeFlags tr w, ?_⟩
  · rw [set_brightness_modeFlags]; exact clearLPM_bit11 _
  · rw [set_brightness_modeFlags]; exact testBit_clearLPM _ hm i hi
  · rw [get_brightness_modeFlags]; exact clearLPM_bit11 _
  · rw [get_brightness_modeFlags]; exact testBit_clearLPM _ hm i hi
  · intro ops h; exact runOps_lpm_clear tr ops w h
  · intro h
    unfold ili9806e_bl_get_brightness mipi_dsi_dcs_get_display_brightness
    simp [not_lt.mpr h]

/-- C10 witness: the theorem applied at the probe state with value 300
and bit 0. -/
theorem claim_C10_witness :
    (wProbe.modeFlags < 2 ^ 32 ∧ (0 : Nat) ≠ 11) ∧
    ((set_brightness trOk wProbe 300).2.modeFlags).testBit 11 = false ∧
    ((ili9806e_bl_get_brightness trOk wProbe).2.modeFlags).testBit 0 =
      wProbe.modeFlags.testBit 0 := by
  have h := claim_C10_brightness_clears_lpm trOk wProbe 300 0 (by decide)
    (by decide)
  exact ⟨⟨by decide, by decide⟩, h.1, h.2.2.2.1⟩

end Ili9806e
